import Mathlib

/-
Verification of the Bookio library-catalog backend (NestJS + DynamoDB).

The development shallowly embeds the service layer:
  * `BooksService`      (src/books/books.service.ts)
  * `CategoriesService` (src/categories/categories.service.ts)
  * `AuthorsService`    (src/authors/authors.service.ts)

Modelling conventions:
  * A DynamoDB table is a `List` of records keyed by `id`; a conditional
    single-item update mutates the first record matching the key
    (`setFirst`), which is the unique one since DynamoDB primary keys are
    unique.
  * Thrown JavaScript exceptions become `Except ApiError` results.  Each
    exception class used by the source is a distinct `ApiError`
    constructor, so that `instanceof` discrimination inside `catch`
    blocks can be reproduced exactly.
  * ISO-8601 date strings are modelled by their epoch-millisecond values
    (`Int`); `new Date(a) < new Date(b)` is exactly `a < b` on those
    values, and `Math.ceil((b - a) / ms)` is Euclidean ceiling division.
  * `new Date().toISOString()` timestamps that are only stored (never
    compared) stay opaque `String` parameters.
-/

set_option autoImplicit false

/-! ## JavaScript string primitives used by the services -/

/-- `s.toLowerCase()` (ASCII case folding, which covers every string the
services compare). -/
def jsToLower (s : String) : String :=
  String.mk (s.data.map Char.toLower)

/-- `s.trim()`: strip leading and trailing whitespace. -/
def jsTrim (s : String) : String :=
  String.mk (((s.data.dropWhile Char.isWhitespace).reverse.dropWhile Char.isWhitespace).reverse)

/-- Split a character list at every occurrence of `sep` (the pieces keep
their order; consecutive separators yield empty pieces, as in
JavaScript `String.prototype.split`). -/
def splitChars (sep : Char) : List Char → List (List Char)
  | [] => [[]]
  | c :: cs =>
    if c = sep then
      [] :: splitChars sep cs
    else
      match splitChars sep cs with
      | [] => [[c]]
      | w :: ws => (c :: w) :: ws

/-- `s.split(' ')`. -/
def jsSplitSpace (s : String) : List String :=
  (splitChars ' ' s.data).map String.mk

/-- Does `needle` occur at the head of `hay`? -/
def matchesAt {α : Type} [DecidableEq α] : List α → List α → Bool
  | [], _ => true
  | _ :: _, [] => false
  | a :: as, b :: bs => a = b && matchesAt as bs

/-- Does `needle` occur anywhere inside `hay`? -/
def hasSub {α : Type} [DecidableEq α] (needle : List α) : List α → Bool
  | [] => needle.isEmpty
  | b :: bs => matchesAt needle (b :: bs) || hasSub needle bs

/-- `hay.includes(needle)` and the DynamoDB `contains(hay, needle)`
function: both are case-sensitive substring tests. -/
def jsIncludes (hay needle : String) : Bool :=
  hasSub needle.data hay.data

/-! ## Keyed single-item updates -/

/-- Replace the first element satisfying `p` by its image under `f`;
every other element is untouched.  This is the effect of a DynamoDB
`UpdateCommand` on the (unique) item with the given primary key. -/
def setFirst {α : Type} (p : α → Bool) (f : α → α) : List α → List α
  | [] => []
  | x :: xs => if p x then f x :: xs else x :: setFirst p f xs

theorem find?_setFirst {α : Type} (p : α → Bool) (f : α → α)
    (hf : ∀ x, p x = true → p (f x) = true) (l : List α) :
    (setFirst p f l).find? p = (l.find? p).map f := by
  induction l with
  | nil => rfl
  | cons x xs ih =>
    simp only [setFirst]
    by_cases h : p x = true
    · rw [if_pos h, List.find?_cons_of_pos _ (hf x h), List.find?_cons_of_pos _ h]
      rfl
    · rw [if_neg h, List.find?_cons_of_neg _ h, List.find?_cons_of_neg _ h]
      exact ih

theorem mem_setFirst {α : Type} (p : α → Bool) (f : α → α) (l : List α) :
    ∀ y ∈ setFirst p f l, y ∈ l ∨ ∃ x, l.find? p = some x ∧ y = f x := by
  induction l with
  | nil => intro y hy; exact absurd hy (by simp [setFirst])
  | cons x xs ih =>
    intro y hy
    simp only [setFirst] at hy
    by_cases h : p x = true
    · rw [if_pos h] at hy
      cases List.mem_cons.mp hy with
      | inl hEq => exact Or.inr ⟨x, List.find?_cons_of_pos _ h, hEq⟩
      | inr hMem => exact Or.inl (List.mem_cons.mpr (Or.inr hMem))
    · rw [if_neg h] at hy
      cases List.mem_cons.mp hy with
      | inl hEq => exact Or.inl (List.mem_cons.mpr (Or.inl hEq))
      | inr hMem =>
        cases ih y hMem with
        | inl h1 => exact Or.inl (List.mem_cons.mpr (Or.inr h1))
        | inr h2 =>
          obtain ⟨z, hz, hyz⟩ := h2
          refine Or.inr ⟨z, ?_, hyz⟩
          rw [List.find?_cons_of_neg _ h, hz]

/-! ## Exceptions

One constructor per exception class thrown by the services, so the
`instanceof` tests of the source `catch` blocks translate to exact
pattern matches. -/

inductive ApiError where
  /-- NestJS `NotFoundException` (HTTP 404). -/
  | notFoundException (message : String)
  /-- NestJS `BadRequestException` (HTTP 400). -/
  | badRequestException (message : String)
  /-- NestJS `InternalServerErrorException` (HTTP 500). -/
  | internalServerErrorException (message : String)
  /-- `CategoryNotFoundException` (404). -/
  | categoryNotFound (id : String)
  /-- `CategoryNotFoundByNameException` (404). -/
  | categoryNotFoundByName (name : String)
  /-- `CategoryAlreadyExistsException` (409). -/
  | categoryAlreadyExists (name : String)
  /-- `CategoryCreateException` (500). -/
  | categoryCreateErr (cause : String)
  /-- `CategoryUpdateException` (500). -/
  | categoryUpdateErr (cause : String)
  /-- `CategoryDeleteException` (500). -/
  | categoryDeleteErr (cause : String)
  /-- `AuthorNotFoundException` (404). -/
  | authorNotFound (identifier : String)
  /-- `AuthorAlreadyExistsException` (409). -/
  | authorAlreadyExists (name : String)
  /-- `AuthorCreateException` (500). -/
  | authorCreateErr (cause : String)
  /-- `AuthorUpdateException` (500). -/
  | authorUpdateErr (cause : String)
  /-- `AuthorDeleteException` (500). -/
  | authorDeleteErr (cause : String)
  /-- A raw `new HttpException(message, status)`. -/
  | httpException (message : String) (status : Nat)
  /-- A plain `new Error(message)` (NestJS surfaces it as HTTP 500). -/
  | plainError (message : String)
  deriving DecidableEq

/-- `error.message` of each modelled exception. -/
def ApiError.message : ApiError → String
  | .notFoundException m => m
  | .badRequestException m => m
  | .internalServerErrorException m => m
  | .categoryNotFound id => "Category with ID \"" ++ id ++ "\" not found"
  | .categoryNotFoundByName n => "Category with name \"" ++ n ++ "\" not found"
  | .categoryAlreadyExists n => "Category with name \"" ++ n ++ "\" already exists"
  | .categoryCreateErr c => "Failed to create category: " ++ c
  | .categoryUpdateErr c => "Failed to update category: " ++ c
  | .categoryDeleteErr c => "Failed to delete category: " ++ c
  | .authorNotFound i => "Author with identifier \"" ++ i ++ "\" not found"
  | .authorAlreadyExists n => "Author with email \"" ++ n ++ "\" already exists"
  | .authorCreateErr c => "Failed to create author: " ++ c
  | .authorUpdateErr c => "Failed to update author: " ++ c
  | .authorDeleteErr c => "Failed to delete author: " ++ c
  | .httpException m _ => m
  | .plainError m => m

/-- HTTP status each modelled exception reaches the transport layer with. -/
def ApiError.httpStatus : ApiError → Nat
  | .notFoundException _ => 404
  | .badRequestException _ => 400
  | .internalServerErrorException _ => 500
  | .categoryNotFound _ => 404
  | .categoryNotFoundByName _ => 404
  | .categoryAlreadyExists _ => 409
  | .categoryCreateErr _ => 500
  | .categoryUpdateErr _ => 500
  | .categoryDeleteErr _ => 500
  | .authorNotFound _ => 404
  | .authorAlreadyExists _ => 409
  | .authorCreateErr _ => 500
  | .authorUpdateErr _ => 500
  | .authorDeleteErr _ => 500
  | .httpException _ s => s
  | .plainError _ => 500

/-! ## Book data model (src/books/interfaces/book.interface.ts) -/

inductive BookStatus where
  | AVAILABLE
  | BORROWED
  | UNAVAILABLE
  deriving DecidableEq

/-- The persisted Book record.  `startDate` and `returnDate` are stored as
ISO strings by the source and modelled by their millisecond values. -/
structure Book where
  id : String
  title : String
  authorId : String
  categoryId : String
  isbn : String
  status : BookStatus
  description : Option String
  publishedYear : Int
  borrowerId : Option String
  quantity : Int
  cover : String
  pdf : String
  createdAt : String
  updatedAt : String
  startDate : Option Int
  returnDate : Option Int
  rating : Option Int
  deriving DecidableEq

namespace BooksService

/-- `GetCommand` point lookup on the Books table. -/
def getItem (table : List Book) (id : String) : Option Book :=
  table.find? (fun b => b.id == id)

/-- The in-memory status rewrite performed by the read paths:
`if (book.quantity > 0) book.status = AVAILABLE else book.status = UNAVAILABLE`. -/
def withDerivedStatus (book : Book) : Book :=
  if book.quantity > 0 then
    { book with status := BookStatus.AVAILABLE }
  else
    { book with status := BookStatus.UNAVAILABLE }

/-- The derivation rule exactly as the spec words it (section 8):
`derivedStatus(quantity) = AVAILABLE if quantity > 0 else UNAVAILABLE`. -/
def derivedStatus (quantity : Int) : BookStatus :=
  if quantity > 0 then BookStatus.AVAILABLE else BookStatus.UNAVAILABLE

/-- `BooksService.findOne`.  The source throws `NotFoundException` when
the item is absent, but that throw happens inside the surrounding `try`,
whose `catch` block unconditionally replaces every error with
`InternalServerErrorException('Failed to fetch book')`; the function can
therefore never surface the 404. -/
def findOne (table : List Book) (id : String) : Except ApiError Book :=
  match getItem table id with
  | none => .error (.internalServerErrorException "Failed to fetch book")
  | some book => .ok (withDerivedStatus book)

/-- The `UpdateCommand` shared by the write paths: condition
`attribute_exists(id)`, patch the stored item, return `ALL_NEW`.  The
error string is the message of the SDK `ConditionalCheckFailedException`. -/
def updateExisting (table : List Book) (id : String) (patch : Book → Book) :
    Except String (Book × List Book) :=
  match getItem table id with
  | none => .error "The conditional request failed"
  | some stored =>
    let b := patch stored
    .ok (b, setFirst (fun x => x.id == id) (fun _ => b) table)

/-- The `catch` block of `BooksService.returnBook`: `NotFoundException`
and `BadRequestException` are rethrown unchanged, anything else is
wrapped into `InternalServerErrorException`. -/
def returnBookCatch (e : ApiError) : ApiError :=
  match e with
  | .notFoundException m => .notFoundException m
  | .badRequestException m => .badRequestException m
  | e =>
    let m := e.message
    .internalServerErrorException ("Failed to return book: " ++ m)

/-- `BooksService.returnBook(id, userId)`: fetch through `findOne`,
require `status === BORROWED` and `borrowerId === userId`, then
atomically set `quantity + 1`, null `borrowerId`, `status = AVAILABLE`
and restamp `updatedAt`. -/
def returnBook (table : List Book) (id userId : String) (nowStr : String) :
    Except ApiError (Book × List Book) :=
  let body : Except ApiError (Book × List Book) :=
    match findOne table id with
    | .error e => .error e
    | .ok book =>
      if book.status ≠ BookStatus.BORROWED then
        .error (.badRequestException ("Book with ID \"" ++ id ++ "\" is not currently borrowed"))
      else if book.borrowerId ≠ some userId then
        .error (.badRequestException ("Book with ID \"" ++ id ++ "\" was not borrowed by you"))
      else
        match updateExisting table id (fun stored =>
          { stored with
              borrowerId := none,
              quantity := book.quantity + 1,
              status := BookStatus.AVAILABLE,
              updatedAt := nowStr }) with
        | .ok r => .ok r
        | .error m => .error (.plainError m)
  match body with
  | .ok r => .ok r
  | .error e => .error (returnBookCatch e)

theorem withDerivedStatus_status (b : Book) :
    (withDerivedStatus b).status = derivedStatus b.quantity := by
  unfold withDerivedStatus derivedStatus
  by_cases h : b.quantity > 0 <;> simp [h]

theorem withDerivedStatus_quantity (b : Book) :
    (withDerivedStatus b).quantity = b.quantity := by
  unfold withDerivedStatus
  by_cases h : b.quantity > 0 <;> simp [h]

theorem withDerivedStatus_ne_borrowed (b : Book) :
    (withDerivedStatus b).status ≠ BookStatus.BORROWED := by
  rw [withDerivedStatus_status]
  unfold derivedStatus
  by_cases h : b.quantity > 0 <;> simp [h]

/-! ### Borrow workflow -/

/-- `1000 * 60 * 60 * 24` milliseconds. -/
def msPerDay : Int := 86400000

/-- `Math.ceil((returnDate.getTime() - startDate.getTime()) / msPerDay)`:
for integer operands and positive divisor, the ceiling of the rational
quotient is the Euclidean quotient of `d + msPerDay - 1`. -/
def daysBetweenCeil (startMs returnMs : Int) : Int :=
  (returnMs - startMs + (msPerDay - 1)) / msPerDay

/-- The borrow request after the controller merged `req.user.sub` into
the DTO. -/
structure BorrowData where
  borrowerId : String
  startDate : Int
  returnDate : Int
  deriving DecidableEq

/-- `BooksService.findBorrowedBooksByUser`: a table `Scan` with
`FilterExpression: '#borrowerId = :borrowerId AND #status = :status'`
(`:status = BORROWED`).  The scan keeps table order. -/
def findBorrowedBooksByUser (table : List Book) (userId : String) : List Book :=
  table.filter (fun b => b.borrowerId == some userId && b.status == BookStatus.BORROWED)

/-- The `catch` block of `BooksService.borrow`: a `NotFoundException` is
replaced by a fresh one naming the id, a `BadRequestException` is
rethrown, and anything else becomes a plain
`Error('Failed to borrow book: ...')`. -/
def borrowCatch (id : String) (e : ApiError) : ApiError :=
  match e with
  | .notFoundException _ => .notFoundException ("Book with ID \"" ++ id ++ "\" not found")
  | .badRequestException m => .badRequestException m
  | e =>
    let m := e.message
    .plainError ("Failed to borrow book: " ++ m)

/-- `BooksService.borrow(id, borrowData)`: fetch through `findOne`, then
run the eligibility checks in source order (already borrowed, borrow
limit of 3, quantity, start date not past, return after start, at most
30 ceiling-days), then write `quantity - 1`, borrower, dates,
`status = BORROWED` and `updatedAt` under `attribute_exists(id)`. -/
def borrow (table : List Book) (id : String) (d : BorrowData) (now : Int) (nowStr : String) :
    Except ApiError (Book × List Book) :=
  let body : Except ApiError (Book × List Book) :=
    match findOne table id with
    | .error e => .error e
    | .ok book =>
      let userBorrowedBooks := findBorrowedBooksByUser table d.borrowerId
      if userBorrowedBooks.any (fun b => b.id == id) then
        .error (.badRequestException "You have already borrowed this book")
      else if userBorrowedBooks.length ≥ 3 then
        .error (.badRequestException
          "You cannot borrow more than 3 books at a time. Please return some books first.")
      else if book.quantity ≤ 0 then
        .error (.badRequestException ("Book with ID \"" ++ id ++ "\" is not available for borrowing"))
      else if d.startDate < now then
        .error (.badRequestException "Start date cannot be in the past")
      else if d.returnDate ≤ d.startDate then
        .error (.badRequestException "Return date must be after start date")
      else if daysBetweenCeil d.startDate d.returnDate > 30 then
        .error (.badRequestException "Maximum borrow duration is 30 days")
      else
        match updateExisting table id (fun stored =>
          { stored with
              borrowerId := some d.borrowerId,
              quantity := book.quantity - 1,
              startDate := some d.startDate,
              returnDate := some d.returnDate,
              status := BookStatus.BORROWED,
              updatedAt := nowStr }) with
        | .ok r => .ok r
        | .error m => .error (.plainError m)
  match body with
  | .ok r => .ok r
  | .error e => .error (borrowCatch id e)

/-! ### Read operations -/

/-- A paginated `Scan`: resume strictly after `lastEvaluatedKey` when
given, then take at most `limit` items. -/
def scanPage (table : List Book) (limit : Nat) (lastEvaluatedKey : Option String) : List Book :=
  let rest : List Book :=
    match lastEvaluatedKey with
    | none => table
    | some k => (table.dropWhile (fun b => !(b.id == k))).drop 1
  rest.take limit

/-- `BooksService.findAll`: paginated scan, then the status rewrite on
every returned book.  (The source also returns a message and the next
cursor; only the book list matters here.) -/
def findAll (table : List Book) (limit : Nat) (lastEvaluatedKey : Option String) : List Book :=
  (scanPage table limit lastEvaluatedKey).map withDerivedStatus

/-- `BooksService.findByCategory`: `CategoryIndex` query with a limit,
then the status rewrite. -/
def findByCategory (table : List Book) (categoryId : String) (limit : Nat) : List Book :=
  ((table.filter (fun b => b.categoryId == categoryId)).take limit).map withDerivedStatus

/-- `BooksService.findByAuthor`: `AuthorIndex` query, then the status
rewrite. -/
def findByAuthor (table : List Book) (authorId : String) : List Book :=
  (table.filter (fun b => b.authorId == authorId)).map withDerivedStatus

/-- `BooksService.findByTitle`: `TitleIndex` query on the trimmed title.
Unlike the other read paths this function performs NO status rewrite:
the persisted records are returned as stored. -/
def findByTitle (table : List Book) (title : String) : List Book :=
  table.filter (fun b => b.title == jsTrim title)

/-- `BooksService.findByRating`: `RatingIndex` query.  Like `findByTitle`
it performs NO status rewrite. -/
def findByRating (table : List Book) (rating : Int) : List Book :=
  table.filter (fun b => b.rating == some rating)

/-! ### Search

`BooksService.search` lowercases and tokenizes the query, then runs a
`Scan` whose `FilterExpression` is the disjunction of
`contains(#title, :word) OR contains(#author, :word)` over the tokens.
DynamoDB `contains` on strings is a case-sensitive substring test, and
the Book records persisted by this service carry no `author` attribute
(the interface has `authorId` only), so the author disjunct is always
false.  The survivors are then sorted in memory by descending count of
(lowercased, hence case-insensitive) token matches; ECMAScript
`Array.prototype.sort` is stable, so ties keep encounter order. -/

/-- `query.toLowerCase().trim().split(' ').filter(word => word.length > 0)`. -/
def searchWords (query : String) : List String :=
  (jsSplitSpace (jsTrim (jsToLower query))).filter (fun w => w.length > 0)

/-- The scan `FilterExpression` applied to one record: some token is a
case-sensitive substring of the stored title (or of the nonexistent
`author` attribute, which never holds). -/
def searchScanFilter (words : List String) (b : Book) : Bool :=
  words.any (fun w => jsIncludes b.title w || false)

/-- The relevance score of the in-memory sort comparator: tokens
matching `a.title.toLowerCase()` (the `a.author && ...` conjunct is
always undefined, hence false). -/
def matchCount (words : List String) (b : Book) : Nat :=
  (words.filter (fun w => jsIncludes (jsToLower b.title) w || false)).length

/-- Stable sort by descending `matchCount`: concatenate the score
buckets from highest to lowest, keeping encounter order inside each
bucket.  This is exactly the result of the stable JavaScript sort with
comparator `bMatches - aMatches`. -/
def sortByMatchesDesc (words : List String) (books : List Book) : List Book :=
  (List.range (words.length + 1)).reverse.flatMap
    (fun score => books.filter (fun b => matchCount words b == score))

/-- `BooksService.search(query)`.  An all-whitespace query produces an
empty `FilterExpression`, which DynamoDB rejects; the `catch` block
turns that into an `InternalServerErrorException`. -/
def search (table : List Book) (query : String) : Except ApiError (List Book) :=
  let words := searchWords query
  if words.isEmpty then
    .error (.internalServerErrorException ("Failed to search books: Invalid FilterExpression"))
  else
    .ok (sortByMatchesDesc words (table.filter (searchScanFilter words)))

/-! ### Update -/

/-- Field patch semantics of the update loop: a defined (`some`) DTO
value replaces the stored one, `undefined` (`none`) keeps it. -/
def patchOpt {α : Type} (new old : Option α) : Option α :=
  match new with
  | some v => some v
  | none => old

/-- Modelled from the spec: the file `update-book.dto.ts` is not in the
snapshot (only `books.service.ts` imports it).  Per section 4.4 the
update patches the Book scalar fields; the patch loop in
`books.service.ts` iterates every defined DTO entry and skips only the
keys `id`, `createdAt` and `updatedAt`, so the DTO is modelled as
optional versions of all Book fields, including those three skipped
keys. -/
structure UpdateBookDto where
  id : Option String := none
  title : Option String := none
  authorId : Option String := none
  categoryId : Option String := none
  isbn : Option String := none
  status : Option BookStatus := none
  description : Option String := none
  publishedYear : Option Int := none
  borrowerId : Option String := none
  quantity : Option Int := none
  startDate : Option Int := none
  returnDate : Option Int := none
  rating : Option Int := none
  createdAt : Option String := none
  updatedAt : Option String := none
  deriving DecidableEq

/-- The `Object.entries(updateBookDto)` loop: every defined field except
`id`, `createdAt`, `updatedAt` is written verbatim into the stored
record. -/
def applyUpdateDto (dto : UpdateBookDto) (b : Book) : Book :=
  { b with
      title := dto.title.getD b.title,
      authorId := dto.authorId.getD b.authorId,
      categoryId := dto.categoryId.getD b.categoryId,
      isbn := dto.isbn.getD b.isbn,
      status := dto.status.getD b.status,
      description := patchOpt dto.description b.description,
      publishedYear := dto.publishedYear.getD b.publishedYear,
      borrowerId := patchOpt dto.borrowerId b.borrowerId,
      quantity := dto.quantity.getD b.quantity,
      startDate := patchOpt dto.startDate b.startDate,
      returnDate := patchOpt dto.returnDate b.returnDate,
      rating := patchOpt dto.rating b.rating }

/-- `BooksService.update(id, dto, files)`.  `newCover`/`newPdf` are the
S3 URLs of freshly uploaded replacement files (`none` when the request
carries no file; the old asset is deleted from S3 after the upload,
which leaves no trace in the record store).  The `UpdateCommand` always
restamps `updatedAt`, patches the attachment references, then every
defined DTO field; its `catch` rethrows every error unchanged. -/
def update (table : List Book) (id : String) (dto : UpdateBookDto)
    (newCover newPdf : Option String) (nowStr : String) :
    Except ApiError (Book × List Book) :=
  match findOne table id with
  | .error e => .error e
  | .ok _existing =>
    match updateExisting table id (fun stored =>
      let afterFiles := { stored with
        cover := newCover.getD stored.cover,
        pdf := newPdf.getD stored.pdf }
      { applyUpdateDto dto afterFiles with updatedAt := nowStr }) with
    | .ok r => .ok r
    | .error m => .error (.plainError m)

end BooksService

/-! ## Category and Author data model -/

/-- The persisted Category record (fields beyond the key, name and
counter play no role in the verified claims). -/
structure Category where
  id : String
  name : String
  booksCount : Int
  createdAt : String
  updatedAt : String
  deriving DecidableEq

/-- The persisted Author record (biography, genres, and the other
profile fields play no role in the verified claims). -/
structure Author where
  id : String
  name : String
  booksCount : Int
  createdAt : String
  updatedAt : String
  deriving DecidableEq

/-- An increment/decrement request against a `booksCount` counter. -/
inductive CounterOp where
  | inc
  | dec
  deriving DecidableEq

namespace CategoriesService

/-- `GetCommand` point lookup on the Categories table. -/
def getItem (cats : List Category) (id : String) : Option Category :=
  cats.find? (fun c => c.id == id)

/-- `CategoriesService.findOne`: `CategoryNotFoundException` when
absent; the `catch` rethrows exactly that exception class. -/
def findOne (cats : List Category) (id : String) : Except ApiError Category :=
  match getItem cats id with
  | none => .error (.categoryNotFound id)
  | some c => .ok c

/-- `CategoriesService.remove`: check existence (the source calls
`findOne` twice), refuse with a raw `HttpException(..., CONFLICT)` when
`booksCount > 0`, else delete.  The surrounding `catch` rethrows only
`CategoryNotFoundException`; every other error — including the 409
conflict it just threw — is wrapped into the 500-status
`CategoryDeleteException(error.message)`. -/
def remove (cats : List Category) (id : String) : Except ApiError (List Category) :=
  let body : Except ApiError (List Category) :=
    match findOne cats id with
    | .error e => .error e
    | .ok _ =>
      match findOne cats id with
      | .error e => .error e
      | .ok category =>
        if category.booksCount > 0 then
          .error (.httpException "Cannot delete category with existing books" 409)
        else
          .ok (cats.filter (fun c => !(c.id == id)))
  match body with
  | .ok r => .ok r
  | .error (.categoryNotFound i) => .error (.categoryNotFound i)
  | .error e =>
    let m := e.message
    .error (.categoryDeleteErr m)

/-- `CategoriesService.incrementBooksCount`: unconditional
`SET booksCount = booksCount + 1`.  On a missing item the update
expression references a nonexistent attribute, the SDK raises a
validation error, and the `catch` wraps it into
`CategoryUpdateException`. -/
def incrementBooksCount (cats : List Category) (id : String) : Except ApiError (List Category) :=
  match getItem cats id with
  | none => .error (.categoryUpdateErr "The provided expression refers to an attribute that does not exist in the item")
  | some _ =>
    .ok (setFirst (fun c => c.id == id)
      (fun c => { c with booksCount := c.booksCount + 1 }) cats)

/-- `CategoriesService.decrementBooksCount`:
`SET booksCount = booksCount - 1` guarded by the condition
`booksCount > 0`.  A failed condition raises
`ConditionalCheckFailedException`, which the `catch` maps to a raw
`HttpException('Books count cannot be negative', BAD_REQUEST)`; the
store leaves the item untouched. -/
def decrementBooksCount (cats : List Category) (id : String) : Except ApiError (List Category) :=
  match getItem cats id with
  | none => .error (.httpException "Books count cannot be negative" 400)
  | some c =>
    if c.booksCount > 0 then
      .ok (setFirst (fun x => x.id == id)
        (fun x => { x with booksCount := x.booksCount - 1 }) cats)
    else
      .error (.httpException "Books count cannot be negative" 400)

/-- `CategoriesService.addBookToCategory`: delegate to
`incrementBooksCount`; the `catch` wraps any error into
`CategoryUpdateException(error.message)`. -/
def addBookToCategory (cats : List Category) (id : String) : Except ApiError (List Category) :=
  match incrementBooksCount cats id with
  | .ok r => .ok r
  | .error e =>
    let m := e.message
    .error (.categoryUpdateErr m)

/-- Run one counter operation; a failed operation leaves the table as
the store had it (the conditional write did not happen). -/
def applyOp (cats : List Category) (id : String) : CounterOp → List Category
  | .inc =>
    match incrementBooksCount cats id with
    | .ok r => r
    | .error _ => cats
  | .dec =>
    match decrementBooksCount cats id with
    | .ok r => r
    | .error _ => cats

/-- Run a sequence of counter operations in order. -/
def applyOps (cats : List Category) (id : String) : List CounterOp → List Category
  | [] => cats
  | op :: rest => applyOps (applyOp cats id op) id rest

end CategoriesService

namespace AuthorsService

/-- `GetCommand` point lookup on the Authors table. -/
def getItem (auths : List Author) (id : String) : Option Author :=
  auths.find? (fun a => a.id == id)

/-- `AuthorsService.findOne`: `AuthorNotFoundException` when absent;
the `catch` rethrows exactly that exception class. -/
def findOne (auths : List Author) (id : String) : Except ApiError Author :=
  match getItem auths id with
  | none => .error (.authorNotFound id)
  | some a => .ok a

/-- `AuthorsService.remove`: check existence, refuse with
`AuthorDeleteException('Cannot delete author with existing books')`
(HTTP 500) when `booksCount > 0`, else delete.  The `catch` rethrows
only `AuthorNotFoundException` and wraps every other error — including
the delete exception it just threw — into a fresh
`AuthorDeleteException(error.message)`. -/
def remove (auths : List Author) (id : String) : Except ApiError (List Author) :=
  let body : Except ApiError (List Author) :=
    match findOne auths id with
    | .error e => .error e
    | .ok author =>
      if author.booksCount > 0 then
        .error (.authorDeleteErr "Cannot delete author with existing books")
      else
        .ok (auths.filter (fun a => !(a.id == id)))
  match body with
  | .ok r => .ok r
  | .error (.authorNotFound i) => .error (.authorNotFound i)
  | .error e =>
    let m := e.message
    .error (.authorDeleteErr m)

/-- `AuthorsService.incrementBooksCount`: unconditional
`SET booksCount = booksCount + 1`, errors wrapped into
`AuthorUpdateException`. -/
def incrementBooksCount (auths : List Author) (id : String) : Except ApiError (List Author) :=
  match getItem auths id with
  | none => .error (.authorUpdateErr "The provided expression refers to an attribute that does not exist in the item")
  | some _ =>
    .ok (setFirst (fun a => a.id == id)
      (fun a => { a with booksCount := a.booksCount + 1 }) auths)

/-- `AuthorsService.decrementBooksCount`: decrement guarded by
`booksCount > 0`.  Unlike the category service, the `catch` has no
special case, so the `ConditionalCheckFailedException` is wrapped into
`AuthorUpdateException(error.message)`; the item is untouched. -/
def decrementBooksCount (auths : List Author) (id : String) : Except ApiError (List Author) :=
  match getItem auths id with
  | none => .error (.authorUpdateErr "The conditional request failed")
  | some a =>
    if a.booksCount > 0 then
      .ok (setFirst (fun x => x.id == id)
        (fun x => { x with booksCount := x.booksCount - 1 }) auths)
    else
      .error (.authorUpdateErr "The conditional request failed")

/-- `AuthorsService.addBookToAuthor`: delegate to
`incrementBooksCount`; the `catch` wraps any error into
`AuthorUpdateException(error.message)`. -/
def addBookToAuthor (auths : List Author) (id : String) : Except ApiError (List Author) :=
  match incrementBooksCount auths id with
  | .ok r => .ok r
  | .error e =>
    let m := e.message
    .error (.authorUpdateErr m)

/-- Run one counter operation; a failed operation leaves the table as
the store had it. -/
def applyOp (auths : List Author) (id : String) : CounterOp → List Author
  | .inc =>
    match incrementBooksCount auths id with
    | .ok r => r
    | .error _ => auths
  | .dec =>
    match decrementBooksCount auths id with
    | .ok r => r
    | .error _ => auths

/-- Run a sequence of counter operations in order. -/
def applyOps (auths : List Author) (id : String) : List CounterOp → List Author
  | [] => auths
  | op :: rest => applyOps (applyOp auths id op) id rest

end AuthorsService

/-! ## The combined store and the cross-entity book operations -/

/-- The three DynamoDB tables the services touch. -/
structure LibraryState where
  books : List Book
  categories : List Category
  authors : List Author
  deriving DecidableEq

/-- The metadata part of a book-creation request
(src/books/dto/create-book.dto.ts; `coverUrl`/`pdfUrl` are never read
by the service).  `quantity` is optional in the DTO but required by the
Book interface; the verified claims all concern books with a concrete
quantity. -/
structure CreateBookDto where
  title : String
  authorId : String
  categoryId : String
  isbn : String
  status : BookStatus
  description : Option String
  publishedYear : Int
  quantity : Int
  deriving DecidableEq

/-- The S3 URLs produced by uploading the multipart files of a create
request (`none` models a missing file). -/
structure UploadedFiles where
  cover : Option String
  pdf : Option String
  deriving DecidableEq

namespace BooksService

/-- The record `create` builds: the generated id, the DTO fields, the
status forced to `AVAILABLE`, the uploaded asset URLs and fresh
timestamps. -/
def newBook (dto : CreateBookDto) (coverUrl pdfUrl freshId nowStr : String) : Book :=
  { id := freshId,
    title := dto.title,
    authorId := dto.authorId,
    categoryId := dto.categoryId,
    isbn := dto.isbn,
    status := BookStatus.AVAILABLE,
    description := dto.description,
    publishedYear := dto.publishedYear,
    borrowerId := none,
    quantity := dto.quantity,
    cover := coverUrl,
    pdf := pdfUrl,
    createdAt := nowStr,
    updatedAt := nowStr,
    startDate := none,
    returnDate := none,
    rating := none }

/-- `BooksService.create(dto, files)`: require both files, upload them,
`put` the new record under `attribute_not_exists(id)` with
`status = AVAILABLE`, then increment the category and author counters
— in that order, with no transaction, so a counter failure still leaves
the book persisted.  The `catch` logs and rethrows every error
unchanged.  No ISBN (or any other) uniqueness check is performed:
the only `put` condition is on the freshly generated `id`. -/
def create (s : LibraryState) (dto : CreateBookDto) (files : UploadedFiles)
    (freshId nowStr : String) : Except ApiError Book × LibraryState :=
  match files.cover, files.pdf with
  | some coverUrl, some pdfUrl =>
    let book : Book := newBook dto coverUrl pdfUrl freshId nowStr
    if s.books.any (fun b => b.id == freshId) then
      (.error (.plainError "The conditional request failed"), s)
    else
      let s1 : LibraryState := { s with books := s.books ++ [book] }
      match CategoriesService.addBookToCategory s1.categories dto.categoryId with
      | .error e => (.error e, s1)
      | .ok cats1 =>
        let s2 : LibraryState := { s1 with categories := cats1 }
        match AuthorsService.addBookToAuthor s2.authors dto.authorId with
        | .error e => (.error e, s2)
        | .ok auths1 => (.ok book, { s2 with authors := auths1 })
  | _, _ => (.error (.plainError "Both cover and PDF files are required"), s)

/-- `BooksService.remove(id)`: fetch through `findOne`, delete the two
S3 assets (no record-store effect), then delete the record under
`attribute_exists(id)`.  No category or author counter is touched.  The
`catch` rethrows every error unchanged. -/
def remove (s : LibraryState) (id : String) : Except ApiError String × LibraryState :=
  match findOne s.books id with
  | .error e => (.error e, s)
  | .ok _book =>
    if s.books.any (fun b => b.id == id) then
      (.ok ("Book with ID \"" ++ id ++ "\" has been successfully deleted"),
        { s with books := s.books.filter (fun b => !(b.id == id)) })
    else
      (.error (.plainError "The conditional request failed"), s)

/-- `borrow` lifted to the combined store: it reads and writes the Books
table only. -/
def borrowL (s : LibraryState) (id : String) (d : BorrowData) (now : Int) (nowStr : String) :
    Except ApiError Book × LibraryState :=
  match borrow s.books id d now nowStr with
  | .error e => (.error e, s)
  | .ok (b, books1) => (.ok b, { s with books := books1 })

/-- `returnBook` lifted to the combined store: it reads and writes the
Books table only. -/
def returnBookL (s : LibraryState) (id userId : String) (nowStr : String) :
    Except ApiError Book × LibraryState :=
  match returnBook s.books id userId nowStr with
  | .error e => (.error e, s)
  | .ok (b, books1) => (.ok b, { s with books := books1 })

/-- `update` lifted to the combined store: it reads and writes the Books
table only. -/
def updateL (s : LibraryState) (id : String) (dto : UpdateBookDto)
    (newCover newPdf : Option String) (nowStr : String) :
    Except ApiError Book × LibraryState :=
  match update s.books id dto newCover newPdf nowStr with
  | .error e => (.error e, s)
  | .ok (b, books1) => (.ok b, { s with books := books1 })

end BooksService

/-! ## Concrete fixtures -/

/-- A plain in-stock book. -/
def sampleBook : Book :=
  { id := "b1", title := "Dune", authorId := "a1", categoryId := "c1",
    isbn := "9780441013593", status := BookStatus.AVAILABLE,
    description := none, publishedYear := 1965, borrowerId := none,
    quantity := 2, cover := "cov1", pdf := "pdf1",
    createdAt := "T0", updatedAt := "T0",
    startDate := none, returnDate := none, rating := some 5 }

/-- The persisted record right after user `U1` borrowed `sampleBook`
(one unit left, `status = BORROWED` as written by the borrow path). -/
def borrowedBook : Book :=
  { sampleBook with
      status := BookStatus.BORROWED,
      borrowerId := some "U1",
      quantity := 1,
      startDate := some 100,
      returnDate := some 200,
      updatedAt := "T1" }

/-- A record whose persisted status (`AVAILABLE`) disagrees with the
quantity-derived one (`UNAVAILABLE`, since the quantity is 0). -/
def staleBook : Book :=
  { sampleBook with
      id := "s1", title := "Stale", quantity := 0,
      status := BookStatus.AVAILABLE, rating := some 4 }

/-! ## C1, C3, C4 -/

/-- `returnBook` rejects every call: `findOne` replaces the persisted
status with the quantity-derived one, which is never `BORROWED`, so the
`status !== BORROWED` guard always fires (or `findOne` itself failed). -/
theorem returnBook_error (table : List Book) (id userId nowStr : String) :
    ∃ e, BooksService.returnBook table id userId nowStr = Except.error e := by
  unfold BooksService.returnBook BooksService.findOne
  cases hg : BooksService.getItem table id with
  | none => exact ⟨_, rfl⟩
  | some stored =>
    have hne := BooksService.withDerivedStatus_ne_borrowed stored
    simp only [hg, if_pos hne]
    exact ⟨_, rfl⟩

/-- C1: returning a just-borrowed book never succeeds.  `returnBook`
re-reads the record through `findOne`, which overwrites `status` with
the quantity-derived value (`AVAILABLE` or `UNAVAILABLE`, never
`BORROWED`), so the `status !== BORROWED` guard rejects every call with
`InvalidRequest`; on the concrete freshly-borrowed record (borrower
`U1`, quantity 1) the call fails instead of producing quantity 2,
cleared borrower and `AVAILABLE` status. -/
theorem c1_returnBook_always_rejects :
    (∀ (table : List Book) (id userId nowStr : String),
        ∃ e, BooksService.returnBook table id userId nowStr = Except.error e)
    ∧ BooksService.returnBook [borrowedBook] "b1" "U1" "T2"
        = Except.error (ApiError.badRequestException
            "Book with ID \"b1\" is not currently borrowed") :=
  ⟨returnBook_error, by rfl⟩

/-- Every book leaving a status-rewriting read path satisfies the
spec-level derivation rule. -/
theorem status_of_mem_map (l : List Book) :
    ∀ b ∈ l.map BooksService.withDerivedStatus,
      b.status = BooksService.derivedStatus b.quantity := by
  intro b hb
  obtain ⟨a, _, rfl⟩ := List.mem_map.mp hb
  rw [BooksService.withDerivedStatus_status, BooksService.withDerivedStatus_quantity]

/-- C3 counterexample: `findByRating` (and `findByTitle`) return the
persisted records without the status rewrite, so a zero-quantity book
persisted as `AVAILABLE` is returned as `AVAILABLE`, not the derived
`UNAVAILABLE` the claim requires. -/
theorem c3_findByRating_keeps_persisted_status :
    BooksService.findByRating [staleBook] 4 = [staleBook]
    ∧ staleBook.quantity = 0
    ∧ staleBook.status = BookStatus.AVAILABLE
    ∧ staleBook.status ≠ BooksService.derivedStatus staleBook.quantity
    ∧ BooksService.findByTitle [staleBook] "Stale" = [staleBook] := by
  exact ⟨rfl, rfl, rfl, by decide, rfl⟩

/-- C3 (amended): `findOne`, `findAll`, `findByCategory` and
`findByAuthor` recompute every returned status from the quantity
(`AVAILABLE` iff positive), and the rewrite is idempotent, so repeated
reads agree; `findByTitle` and `findByRating`, however, return the
persisted records unchanged, status included. -/
theorem c3_read_status_derivation (table : List Book) (limit : Nat)
    (lastKey : Option String) (categoryId authorId id title : String) (rating : Int) :
    (∀ b ∈ BooksService.findAll table limit lastKey,
        b.status = BooksService.derivedStatus b.quantity)
    ∧ (∀ b ∈ BooksService.findByCategory table categoryId limit,
        b.status = BooksService.derivedStatus b.quantity)
    ∧ (∀ b ∈ BooksService.findByAuthor table authorId,
        b.status = BooksService.derivedStatus b.quantity)
    ∧ (∀ b, BooksService.findOne table id = Except.ok b →
        b.status = BooksService.derivedStatus b.quantity)
    ∧ (∀ b ∈ BooksService.findByTitle table title, b ∈ table)
    ∧ (∀ b ∈ BooksService.findByRating table rating, b ∈ table)
    ∧ (∀ b, BooksService.withDerivedStatus (BooksService.withDerivedStatus b)
        = BooksService.withDerivedStatus b) := by
  refine ⟨status_of_mem_map _, status_of_mem_map _, status_of_mem_map _, ?_, ?_, ?_, ?_⟩
  · intro b hb
    unfold BooksService.findOne at hb
    cases hg : BooksService.getItem table id with
    | none => rw [hg] at hb; cases hb
    | some stored =>
      rw [hg] at hb
      cases hb
      rw [BooksService.withDerivedStatus_status, BooksService.withDerivedStatus_quantity]
  · intro b hb
    exact List.mem_of_mem_filter hb
  · intro b hb
    exact List.mem_of_mem_filter hb
  · intro b
    unfold BooksService.withDerivedStatus
    by_cases h : b.quantity > 0 <;> simp [h]

/-- Witness for C3 at a concrete store: the book returned by `findAll`
carries its quantity-derived status. -/
theorem c3_read_status_derivation_witness :
    (BooksService.withDerivedStatus sampleBook ∈ BooksService.findAll [sampleBook] 5 none)
    ∧ (BooksService.withDerivedStatus sampleBook).status
        = BooksService.derivedStatus (BooksService.withDerivedStatus sampleBook).quantity :=
  ⟨by decide, (c3_read_status_derivation [sampleBook] 5 none "c1" "a1" "b1" "t" 0).1
      (BooksService.withDerivedStatus sampleBook) (by decide)⟩

/-- C4: fetching an absent book does not surface the 404.  The
`NotFoundException` thrown inside `findOne` is swallowed by the
function's own catch-all and replaced with
`InternalServerErrorException('Failed to fetch book')` (HTTP 500);
consequently step 1 of `borrow` on an absent id surfaces a plain
`Error('Failed to borrow book: ...')`, not the 404 either. -/
theorem c4_findOne_absent_is_500 :
    BooksService.findOne ([] : List Book) "missing"
        = Except.error (ApiError.internalServerErrorException "Failed to fetch book")
    ∧ ApiError.httpStatus (ApiError.internalServerErrorException "Failed to fetch book") = 500
    ∧ BooksService.borrow ([] : List Book) "missing"
        { borrowerId := "U1", startDate := 10, returnDate := 20 } 0 "T1"
        = Except.error (ApiError.plainError "Failed to borrow book: Failed to fetch book") :=
  ⟨rfl, rfl, rfl⟩

/-! ## C2 -/

/-- C2: on an existing book, `borrow` fails with a
`BadRequestException` (InvalidRequest) exactly when the book is already
in the borrowed set of the caller, or that set has at least 3 books
(regardless of availability — the limit check runs before the quantity
check), or the quantity is not positive, or the start date lies before
the current time, or the return date is not after the start date, or
the ceiling-day span exceeds 30 (a span of exactly 30 days passes);
otherwise the borrow succeeds. -/
theorem c2_borrow_rejects_iff (table : List Book) (id : String) (d : BooksService.BorrowData)
    (now : Int) (nowStr : String) (book : Book)
    (h : BooksService.getItem table id = some book) :
    ((∃ m, BooksService.borrow table id d now nowStr
        = Except.error (ApiError.badRequestException m)) ↔
      ((BooksService.findBorrowedBooksByUser table d.borrowerId).any (fun b => b.id == id) = true
        ∨ 3 ≤ (BooksService.findBorrowedBooksByUser table d.borrowerId).length
        ∨ book.quantity ≤ 0
        ∨ d.startDate < now
        ∨ d.returnDate ≤ d.startDate
        ∨ 30 < BooksService.daysBetweenCeil d.startDate d.returnDate))
    ∧ (¬((BooksService.findBorrowedBooksByUser table d.borrowerId).any (fun b => b.id == id) = true
        ∨ 3 ≤ (BooksService.findBorrowedBooksByUser table d.borrowerId).length
        ∨ book.quantity ≤ 0
        ∨ d.startDate < now
        ∨ d.returnDate ≤ d.startDate
        ∨ 30 < BooksService.daysBetweenCeil d.startDate d.returnDate) →
      ∃ r, BooksService.borrow table id d now nowStr = Except.ok r) := by
  have hq := BooksService.withDerivedStatus_quantity book
  unfold BooksService.borrow BooksService.findOne BooksService.updateExisting
  simp only [h, hq]
  split_ifs with h1 h2 h3 h4 h5 h6
  · exact ⟨⟨fun _ => Or.inl h1, fun _ => ⟨_, rfl⟩⟩, fun hn => absurd (Or.inl h1) hn⟩
  · exact ⟨⟨fun _ => Or.inr (Or.inl h2), fun _ => ⟨_, rfl⟩⟩,
      fun hn => absurd (Or.inr (Or.inl h2)) hn⟩
  · exact ⟨⟨fun _ => Or.inr (Or.inr (Or.inl h3)), fun _ => ⟨_, rfl⟩⟩,
      fun hn => absurd (Or.inr (Or.inr (Or.inl h3))) hn⟩
  · exact ⟨⟨fun _ => Or.inr (Or.inr (Or.inr (Or.inl h4))), fun _ => ⟨_, rfl⟩⟩,
      fun hn => absurd (Or.inr (Or.inr (Or.inr (Or.inl h4)))) hn⟩
  · exact ⟨⟨fun _ => Or.inr (Or.inr (Or.inr (Or.inr (Or.inl h5)))), fun _ => ⟨_, rfl⟩⟩,
      fun hn => absurd (Or.inr (Or.inr (Or.inr (Or.inr (Or.inl h5))))) hn⟩
  · exact ⟨⟨fun _ => Or.inr (Or.inr (Or.inr (Or.inr (Or.inr h6)))), fun _ => ⟨_, rfl⟩⟩,
      fun hn => absurd (Or.inr (Or.inr (Or.inr (Or.inr (Or.inr h6))))) hn⟩
  · refine ⟨⟨?_, ?_⟩, fun _ => ⟨_, rfl⟩⟩
    · rintro ⟨m, hm⟩
      exact hm.elim
    · rintro (hd | hd | hd | hd | hd | hd)
      · exact absurd hd h1
      · exact absurd hd h2
      · exact absurd hd h3
      · exact absurd hd h4
      · exact absurd hd h5
      · exact absurd hd h6

/-- A well-formed borrow request: fresh borrower, future dates, 10-day
span (measured from `now = 0`). -/
def validBorrow : BooksService.BorrowData :=
  { borrowerId := "U9", startDate := 10, returnDate := 20 }

/-- Witness for C2 at a concrete store: the available `sampleBook` with
an eligible borrower and valid dates. -/
theorem c2_borrow_rejects_iff_witness :
    (BooksService.getItem [sampleBook] "b1" = some sampleBook)
    ∧ (((∃ m, BooksService.borrow [sampleBook] "b1" validBorrow 0 "T1"
          = Except.error (ApiError.badRequestException m)) ↔
        ((BooksService.findBorrowedBooksByUser [sampleBook] validBorrow.borrowerId).any
            (fun b => b.id == "b1") = true
          ∨ 3 ≤ (BooksService.findBorrowedBooksByUser [sampleBook] validBorrow.borrowerId).length
          ∨ sampleBook.quantity ≤ 0
          ∨ validBorrow.startDate < 0
          ∨ validBorrow.returnDate ≤ validBorrow.startDate
          ∨ 30 < BooksService.daysBetweenCeil validBorrow.startDate validBorrow.returnDate))
      ∧ (¬((BooksService.findBorrowedBooksByUser [sampleBook] validBorrow.borrowerId).any
            (fun b => b.id == "b1") = true
          ∨ 3 ≤ (BooksService.findBorrowedBooksByUser [sampleBook] validBorrow.borrowerId).length
          ∨ sampleBook.quantity ≤ 0
          ∨ validBorrow.startDate < 0
          ∨ validBorrow.returnDate ≤ validBorrow.startDate
          ∨ 30 < BooksService.daysBetweenCeil validBorrow.startDate validBorrow.returnDate) →
        ∃ r, BooksService.borrow [sampleBook] "b1" validBorrow 0 "T1" = Except.ok r)) :=
  ⟨rfl, c2_borrow_rejects_iff [sampleBook] "b1" validBorrow 0 "T1" sampleBook rfl⟩

/-! ## C5, C6 -/

/-- The category `sampleBook` belongs to (it already counts that book). -/
def sampleCategory : Category :=
  { id := "c1", name := "Science Fiction", booksCount := 1,
    createdAt := "T0", updatedAt := "T0" }

/-- The author of `sampleBook` (already counting that book). -/
def sampleAuthor : Author :=
  { id := "a1", name := "Frank Herbert", booksCount := 1,
    createdAt := "T0", updatedAt := "T0" }

/-- A consistent store: one book, its category and its author. -/
def sampleState : LibraryState :=
  { books := [sampleBook], categories := [sampleCategory], authors := [sampleAuthor] }

/-- Full effect of a successful `create`: the new record is appended and
the two counters are incremented on the referenced category and
author. -/
theorem create_result (s : LibraryState) (dto : CreateBookDto)
    (coverUrl pdfUrl freshId nowStr : String) (c : Category) (a : Author)
    (hc : CategoriesService.getItem s.categories dto.categoryId = some c)
    (ha : AuthorsService.getItem s.authors dto.authorId = some a)
    (hfresh : s.books.any (fun b => b.id == freshId) = false) :
    BooksService.create s dto { cover := some coverUrl, pdf := some pdfUrl } freshId nowStr
      = (Except.ok (BooksService.newBook dto coverUrl pdfUrl freshId nowStr),
         { books := s.books ++ [BooksService.newBook dto coverUrl pdfUrl freshId nowStr],
           categories := setFirst (fun x => x.id == dto.categoryId)
             (fun x => { x with booksCount := x.booksCount + 1 }) s.categories,
           authors := setFirst (fun x => x.id == dto.authorId)
             (fun x => { x with booksCount := x.booksCount + 1 }) s.authors }) := by
  unfold BooksService.create CategoriesService.addBookToCategory
    CategoriesService.incrementBooksCount AuthorsService.addBookToAuthor
    AuthorsService.incrementBooksCount
  simp only [hfresh, hc, ha, Bool.false_eq_true, if_false]

/-- `borrowL` never touches the Categories or Authors tables. -/
theorem borrowL_frame (s : LibraryState) (id : String) (d : BooksService.BorrowData)
    (now : Int) (nowStr : String) :
    (BooksService.borrowL s id d now nowStr).2.categories = s.categories
    ∧ (BooksService.borrowL s id d now nowStr).2.authors = s.authors := by
  unfold BooksService.borrowL
  cases hb : BooksService.borrow s.books id d now nowStr with
  | error e => exact ⟨rfl, rfl⟩
  | ok r => cases r with | mk b books1 => exact ⟨rfl, rfl⟩

/-- `returnBookL` never touches the Categories or Authors tables. -/
theorem returnBookL_frame (s : LibraryState) (id userId nowStr : String) :
    (BooksService.returnBookL s id userId nowStr).2.categories = s.categories
    ∧ (BooksService.returnBookL s id userId nowStr).2.authors = s.authors := by
  unfold BooksService.returnBookL
  cases hb : BooksService.returnBook s.books id userId nowStr with
  | error e => exact ⟨rfl, rfl⟩
  | ok r => cases r with | mk b books1 => exact ⟨rfl, rfl⟩

/-- `updateL` never touches the Categories or Authors tables. -/
theorem updateL_frame (s : LibraryState) (id : String) (dto : BooksService.UpdateBookDto)
    (nc np : Option String) (nowStr : String) :
    (BooksService.updateL s id dto nc np nowStr).2.categories = s.categories
    ∧ (BooksService.updateL s id dto nc np nowStr).2.authors = s.authors := by
  unfold BooksService.updateL
  cases hb : BooksService.update s.books id dto nc np nowStr with
  | error e => exact ⟨rfl, rfl⟩
  | ok r => cases r with | mk b books1 => exact ⟨rfl, rfl⟩

/-- `BooksService.remove` never touches the Categories or Authors
tables. -/
theorem remove_frame (s : LibraryState) (id : String) :
    (BooksService.remove s id).2.categories = s.categories
    ∧ (BooksService.remove s id).2.authors = s.authors := by
  unfold BooksService.remove
  cases hf : BooksService.findOne s.books id with
  | error e => exact ⟨rfl, rfl⟩
  | ok b =>
    by_cases hx : s.books.any (fun x => x.id == id) = true
    · simp only [hx, if_true]
      exact ⟨by trivial, by trivial⟩
    · simp only [hx, if_false]
      exact ⟨by trivial, by trivial⟩

/-- C5 counterexample: deleting `sampleBook` succeeds but leaves the
category and author counters exactly as they were (1), not decremented
to 0 as the claim requires. -/
theorem c5_remove_does_not_decrement :
    (BooksService.remove sampleState "b1").1
        = Except.ok "Book with ID \"b1\" has been successfully deleted"
    ∧ (BooksService.remove sampleState "b1").2.books = []
    ∧ (BooksService.remove sampleState "b1").2.categories = [sampleCategory]
    ∧ (BooksService.remove sampleState "b1").2.authors = [sampleAuthor]
    ∧ sampleCategory.booksCount = 1
    ∧ ¬(CategoriesService.getItem (BooksService.remove sampleState "b1").2.categories "c1"
          = some { sampleCategory with booksCount := 0 }) := by
  refine ⟨rfl, rfl, rfl, rfl, rfl, by decide⟩

/-- C5 (amended): every successful Book creation increments the
referenced category and author counters by one, but Book deletion does
NOT decrement them — it leaves both tables untouched — and neither does
any other Book operation (borrow, return, update). -/
theorem c5_counters_touched_only_by_create (s : LibraryState) (dto : CreateBookDto)
    (coverUrl pdfUrl freshId nowStr : String) (c : Category) (a : Author)
    (hc : CategoriesService.getItem s.categories dto.categoryId = some c)
    (ha : AuthorsService.getItem s.authors dto.authorId = some a)
    (hfresh : s.books.any (fun b => b.id == freshId) = false)
    (bid userId : String) (d : BooksService.BorrowData) (now : Int)
    (dto2 : BooksService.UpdateBookDto) (nc np : Option String) :
    (CategoriesService.getItem
        (BooksService.create s dto { cover := some coverUrl, pdf := some pdfUrl }
          freshId nowStr).2.categories dto.categoryId
        = some { c with booksCount := c.booksCount + 1 }
      ∧ AuthorsService.getItem
        (BooksService.create s dto { cover := some coverUrl, pdf := some pdfUrl }
          freshId nowStr).2.authors dto.authorId
        = some { a with booksCount := a.booksCount + 1 })
    ∧ ((BooksService.remove s bid).2.categories = s.categories
      ∧ (BooksService.remove s bid).2.authors = s.authors)
    ∧ ((BooksService.borrowL s bid d now nowStr).2.categories = s.categories
      ∧ (BooksService.borrowL s bid d now nowStr).2.authors = s.authors)
    ∧ ((BooksService.returnBookL s bid userId nowStr).2.categories = s.categories
      ∧ (BooksService.returnBookL s bid userId nowStr).2.authors = s.authors)
    ∧ ((BooksService.updateL s bid dto2 nc np nowStr).2.categories = s.categories
      ∧ (BooksService.updateL s bid dto2 nc np nowStr).2.authors = s.authors) := by
  refine ⟨⟨?_, ?_⟩, remove_frame s bid, borrowL_frame s bid d now nowStr,
    returnBookL_frame s bid userId nowStr, updateL_frame s bid dto2 nc np nowStr⟩
  · rw [create_result s dto coverUrl pdfUrl freshId nowStr c a hc ha hfresh]
    unfold CategoriesService.getItem at hc ⊢
    dsimp only
    rw [find?_setFirst (fun x => x.id == dto.categoryId)
      (fun x => { x with booksCount := x.booksCount + 1 }) (fun x hx => hx) s.categories, hc]
    rfl
  · rw [create_result s dto coverUrl pdfUrl freshId nowStr c a hc ha hfresh]
    unfold AuthorsService.getItem at ha ⊢
    dsimp only
    rw [find?_setFirst (fun x => x.id == dto.authorId)
      (fun x => { x with booksCount := x.booksCount + 1 }) (fun x hx => hx) s.authors, ha]
    rfl

/-- Witness for C5 at the concrete consistent store: creating a second
book in the same category bumps both counters from 1 to 2, and so on. -/
theorem c5_counters_touched_only_by_create_witness :
    (CategoriesService.getItem sampleState.categories "c1" = some sampleCategory)
    ∧ (AuthorsService.getItem sampleState.authors "a1" = some sampleAuthor)
    ∧ (sampleState.books.any (fun b => b.id == "b2") = false)
    ∧ CategoriesService.getItem
        (BooksService.create sampleState
          { title := "Dune Messiah", authorId := "a1", categoryId := "c1",
            isbn := "9780441013594", status := BookStatus.AVAILABLE,
            description := none, publishedYear := 1969, quantity := 1 }
          { cover := some "cov2", pdf := some "pdf2" } "b2" "T1").2.categories "c1"
        = some { sampleCategory with booksCount := 2 } := by
  refine ⟨rfl, rfl, rfl, ?_⟩
  exact (c5_counters_touched_only_by_create sampleState
    { title := "Dune Messiah", authorId := "a1", categoryId := "c1",
      isbn := "9780441013594", status := BookStatus.AVAILABLE,
      description := none, publishedYear := 1969, quantity := 1 }
    "cov2" "pdf2" "b2" "T1" sampleCategory sampleAuthor rfl rfl rfl
    "b1" "U1" validBorrow 0 {} none none).1.1

/-- A creation request colliding on ISBN with the persisted
`sampleBook`. -/
def dupDto : CreateBookDto :=
  { title := "Dune Messiah", authorId := "a1", categoryId := "c1",
    isbn := "9780441013593", status := BookStatus.AVAILABLE,
    description := none, publishedYear := 1969, quantity := 1 }

/-- C6 counterexample: creating a book whose ISBN equals the ISBN of the
already-persisted `sampleBook` succeeds and persists a second record
with that ISBN — it does not fail with `AlreadyExists`. -/
theorem c6_duplicate_isbn_create_succeeds :
    sampleBook.isbn = dupDto.isbn
    ∧ (BooksService.create sampleState dupDto
        { cover := some "cov2", pdf := some "pdf2" } "b2" "T1").1
        = Except.ok (BooksService.newBook dupDto "cov2" "pdf2" "b2" "T1")
    ∧ ((BooksService.create sampleState dupDto
        { cover := some "cov2", pdf := some "pdf2" } "b2" "T1").2.books.filter
          (fun b => b.isbn == "9780441013593")).length = 2 := by
  refine ⟨rfl, rfl, rfl⟩

/-- C6 (amended): `create` performs no ISBN-uniqueness check — its only
put condition is on the freshly generated id — so with both attachments
present, a fresh id and existing category/author, a create call whose
ISBN collides with an already-persisted book succeeds and appends a new
record carrying that same ISBN. -/
theorem c6_create_has_no_isbn_check (s : LibraryState) (dto : CreateBookDto)
    (coverUrl pdfUrl freshId nowStr : String) (c : Category) (a : Author) (old : Book)
    (_hold : old ∈ s.books) (hisbn : old.isbn = dto.isbn)
    (hc : CategoriesService.getItem s.categories dto.categoryId = some c)
    (ha : AuthorsService.getItem s.authors dto.authorId = some a)
    (hfresh : s.books.any (fun b => b.id == freshId) = false) :
    ∃ b, (BooksService.create s dto { cover := some coverUrl, pdf := some pdfUrl }
            freshId nowStr).1 = Except.ok b
      ∧ b.isbn = old.isbn
      ∧ (BooksService.create s dto { cover := some coverUrl, pdf := some pdfUrl }
            freshId nowStr).2.books = s.books ++ [b] := by
  refine ⟨BooksService.newBook dto coverUrl pdfUrl freshId nowStr, ?_, hisbn.symm, ?_⟩
  · rw [create_result s dto coverUrl pdfUrl freshId nowStr c a hc ha hfresh]
  · rw [create_result s dto coverUrl pdfUrl freshId nowStr c a hc ha hfresh]

/-- Witness for C6: the concrete collision of `dupDto` with
`sampleBook`. -/
theorem c6_create_has_no_isbn_check_witness :
    (sampleBook ∈ sampleState.books)
    ∧ ∃ b, (BooksService.create sampleState dupDto
        { cover := some "cov2", pdf := some "pdf2" } "b2" "T1").1 = Except.ok b
      ∧ b.isbn = sampleBook.isbn
      ∧ (BooksService.create sampleState dupDto
          { cover := some "cov2", pdf := some "pdf2" } "b2" "T1").2.books
          = sampleState.books ++ [b] :=
  ⟨by decide, c6_create_has_no_isbn_check sampleState dupDto "cov2" "pdf2" "b2" "T1"
    sampleCategory sampleAuthor sampleBook (by decide) rfl rfl rfl rfl⟩

/-! ## C7 -/

/-- A category still counting one book. -/
def busyCategory : Category :=
  { id := "c9", name := "History", booksCount := 1, createdAt := "T0", updatedAt := "T0" }

/-- An author still counting two books. -/
def busyAuthor : Author :=
  { id := "a9", name := "Herodotus", booksCount := 2, createdAt := "T0", updatedAt := "T0" }

/-- C7 counterexample: deleting a category (resp. author) with
`booksCount > 0` is refused, but the surfaced error is the 500-status
`CategoryDeleteException` (resp. `AuthorDeleteException`), not a 409
Conflict: the category guard's own `HttpException(..., CONFLICT)` is
swallowed and re-wrapped by the `catch`, and the author guard raises
the 500 exception directly. -/
theorem c7_delete_guard_surfaces_500 :
    CategoriesService.remove [busyCategory] "c9"
        = Except.error (ApiError.categoryDeleteErr "Cannot delete category with existing books")
    ∧ ApiError.httpStatus
        (ApiError.categoryDeleteErr "Cannot delete category with existing books") = 500
    ∧ ¬(ApiError.httpStatus
        (ApiError.categoryDeleteErr "Cannot delete category with existing books") = 409)
    ∧ AuthorsService.remove [busyAuthor] "a9"
        = Except.error (ApiError.authorDeleteErr
            "Failed to delete author: Cannot delete author with existing books")
    ∧ ApiError.httpStatus (ApiError.authorDeleteErr
        "Failed to delete author: Cannot delete author with existing books") = 500 := by
  refine ⟨rfl, rfl, by decide, rfl, rfl⟩

/-- C7 (amended): for an existing category or author, `remove` with
`booksCount > 0` fails — leaving the record in place — but the error
surfaced to the caller is the entity DeleteException with HTTP status
500 (for the category, its internal 409 Conflict is re-wrapped by the
catch-all; the author path throws the 500 exception directly); with
`booksCount == 0` the remove succeeds and deletes the record. -/
theorem c7_remove_guard (cats : List Category) (auths : List Author) (cid aid : String)
    (c : Category) (a : Author)
    (hc : CategoriesService.getItem cats cid = some c)
    (ha : AuthorsService.getItem auths aid = some a) :
    (0 < c.booksCount →
      CategoriesService.remove cats cid
        = Except.error (ApiError.categoryDeleteErr "Cannot delete category with existing books"))
    ∧ (c.booksCount = 0 →
      CategoriesService.remove cats cid = Except.ok (cats.filter (fun x => !(x.id == cid))))
    ∧ (0 < a.booksCount →
      AuthorsService.remove auths aid
        = Except.error (ApiError.authorDeleteErr
            "Failed to delete author: Cannot delete author with existing books"))
    ∧ (a.booksCount = 0 →
      AuthorsService.remove auths aid = Except.ok (auths.filter (fun x => !(x.id == aid))))
    ∧ ApiError.httpStatus
        (ApiError.categoryDeleteErr "Cannot delete category with existing books") = 500
    ∧ ApiError.httpStatus (ApiError.authorDeleteErr
        "Failed to delete author: Cannot delete author with existing books") = 500 := by
  refine ⟨?_, ?_, ?_, ?_, rfl, rfl⟩
  · intro hpos
    unfold CategoriesService.remove CategoriesService.findOne
    simp only [hc]
    rw [if_pos hpos]
    rfl
  · intro h0
    unfold CategoriesService.remove CategoriesService.findOne
    simp only [hc]
    rw [if_neg (by omega)]
  · intro hpos
    unfold AuthorsService.remove AuthorsService.findOne
    simp only [ha]
    rw [if_pos hpos]
    rfl
  · intro h0
    unfold AuthorsService.remove AuthorsService.findOne
    simp only [ha]
    rw [if_neg (by omega)]

/-- Witness for C7: the blocked delete on the concrete `busyCategory`
and the successful delete once the counter is 0. -/
theorem c7_remove_guard_witness :
    (CategoriesService.getItem [busyCategory] "c9" = some busyCategory)
    ∧ (AuthorsService.getItem [{ busyAuthor with booksCount := 0 }] "a9"
        = some { busyAuthor with booksCount := 0 })
    ∧ (0 < busyCategory.booksCount →
        CategoriesService.remove [busyCategory] "c9"
          = Except.error (ApiError.categoryDeleteErr "Cannot delete category with existing books"))
    ∧ ({ busyAuthor with booksCount := 0 }.booksCount = 0 →
        AuthorsService.remove [{ busyAuthor with booksCount := 0 }] "a9"
          = Except.ok (List.filter (fun x => !(x.id == "a9")) [{ busyAuthor with booksCount := 0 }])) :=
  ⟨rfl, rfl,
    (c7_remove_guard [busyCategory] [{ busyAuthor with booksCount := 0 }] "c9" "a9"
      busyCategory { busyAuthor with booksCount := 0 } rfl rfl).1,
    (c7_remove_guard [busyCategory] [{ busyAuthor with booksCount := 0 }] "c9" "a9"
      busyCategory { busyAuthor with booksCount := 0 } rfl rfl).2.2.2.1⟩

/-! ## C8 -/

/-- A successful category-counter increment keeps every counter in the
table nonnegative. -/
theorem incrementBooksCount_ok_nonneg (cats : List Category) (id : String)
    (r : List Category) (hr : CategoriesService.incrementBooksCount cats id = Except.ok r)
    (h : ∀ c ∈ cats, 0 ≤ c.booksCount) : ∀ c ∈ r, 0 ≤ c.booksCount := by
  unfold CategoriesService.incrementBooksCount at hr
  cases hg : CategoriesService.getItem cats id with
  | none => rw [hg] at hr; cases hr
  | some c0 =>
    rw [hg] at hr
    cases hr
    intro c hcmem
    rcases mem_setFirst _ _ _ c hcmem with hmem | ⟨x, hx, rfl⟩
    · exact h c hmem
    · have hx0 := h x (List.mem_of_find?_eq_some hx)
      show 0 ≤ x.booksCount + 1
      omega

/-- A successful category-counter decrement keeps every counter in the
table nonnegative: the store-level guard `booksCount > 0` protects the
(unique) item the key matches. -/
theorem decrementBooksCount_ok_nonneg (cats : List Category) (id : String)
    (r : List Category) (hr : CategoriesService.decrementBooksCount cats id = Except.ok r)
    (h : ∀ c ∈ cats, 0 ≤ c.booksCount) : ∀ c ∈ r, 0 ≤ c.booksCount := by
  unfold CategoriesService.decrementBooksCount at hr
  cases hg : CategoriesService.getItem cats id with
  | none => rw [hg] at hr; cases hr
  | some c0 =>
    simp only [hg] at hr
    by_cases hpos : c0.booksCount > 0
    · rw [if_pos hpos] at hr
      cases hr
      intro c hcmem
      rcases mem_setFirst _ _ _ c hcmem with hmem | ⟨x, hx, rfl⟩
      · exact h c hmem
      · have hxc : x = c0 := by
          unfold CategoriesService.getItem at hg
          exact Option.some.inj (hx.symm.trans hg)
        show 0 ≤ x.booksCount - 1
        rw [hxc]
        omega
    · rw [if_neg hpos] at hr
      cases hr

/-- Category-counter nonnegativity is preserved by every operation
sequence (failed operations leave the table unchanged). -/
theorem applyOps_nonneg_cat (id : String) (ops : List CounterOp) :
    ∀ cats : List Category, (∀ c ∈ cats, 0 ≤ c.booksCount) →
      ∀ c ∈ CategoriesService.applyOps cats id ops, 0 ≤ c.booksCount := by
  induction ops with
  | nil => intro cats h c hc; exact h c hc
  | cons op rest ih =>
    intro cats h
    simp only [CategoriesService.applyOps]
    apply ih
    cases op with
    | inc =>
      unfold CategoriesService.applyOp
      cases hr : CategoriesService.incrementBooksCount cats id with
      | ok r => exact incrementBooksCount_ok_nonneg cats id r hr h
      | error e => exact h
    | dec =>
      unfold CategoriesService.applyOp
      cases hr : CategoriesService.decrementBooksCount cats id with
      | ok r => exact decrementBooksCount_ok_nonneg cats id r hr h
      | error e => exact h

/-- A successful author-counter increment keeps every counter in the
table nonnegative. -/
theorem incrementBooksCount_ok_nonneg_auth (auths : List Author) (id : String)
    (r : List Author) (hr : AuthorsService.incrementBooksCount auths id = Except.ok r)
    (h : ∀ a ∈ auths, 0 ≤ a.booksCount) : ∀ a ∈ r, 0 ≤ a.booksCount := by
  unfold AuthorsService.incrementBooksCount at hr
  cases hg : AuthorsService.getItem auths id with
  | none => rw [hg] at hr; cases hr
  | some a0 =>
    rw [hg] at hr
    cases hr
    intro a hamem
    rcases mem_setFirst _ _ _ a hamem with hmem | ⟨x, hx, rfl⟩
    · exact h a hmem
    · have hx0 := h x (List.mem_of_find?_eq_some hx)
      show 0 ≤ x.booksCount + 1
      omega

/-- A successful author-counter decrement keeps every counter in the
table nonnegative. -/
theorem decrementBooksCount_ok_nonneg_auth (auths : List Author) (id : String)
    (r : List Author) (hr : AuthorsService.decrementBooksCount auths id = Except.ok r)
    (h : ∀ a ∈ auths, 0 ≤ a.booksCount) : ∀ a ∈ r, 0 ≤ a.booksCount := by
  unfold AuthorsService.decrementBooksCount at hr
  cases hg : AuthorsService.getItem auths id with
  | none => rw [hg] at hr; cases hr
  | some a0 =>
    simp only [hg] at hr
    by_cases hpos : a0.booksCount > 0
    · rw [if_pos hpos] at hr
      cases hr
      intro a hamem
      rcases mem_setFirst _ _ _ a hamem with hmem | ⟨x, hx, rfl⟩
      · exact h a hmem
      · have hxc : x = a0 := by
          unfold AuthorsService.getItem at hg
          exact Option.some.inj (hx.symm.trans hg)
        show 0 ≤ x.booksCount - 1
        rw [hxc]
        omega
    · rw [if_neg hpos] at hr
      cases hr

/-- Author-counter nonnegativity is preserved by every operation
sequence. -/
theorem applyOps_nonneg_auth (id : String) (ops : List CounterOp) :
    ∀ auths : List Author, (∀ a ∈ auths, 0 ≤ a.booksCount) →
      ∀ a ∈ AuthorsService.applyOps auths id ops, 0 ≤ a.booksCount := by
  induction ops with
  | nil => intro auths h a ha; exact h a ha
  | cons op rest ih =>
    intro auths h
    simp only [AuthorsService.applyOps]
    apply ih
    cases op with
    | inc =>
      unfold AuthorsService.applyOp
      cases hr : AuthorsService.incrementBooksCount auths id with
      | ok r => exact incrementBooksCount_ok_nonneg_auth auths id r hr h
      | error e => exact h
    | dec =>
      unfold AuthorsService.applyOp
      cases hr : AuthorsService.decrementBooksCount auths id with
      | ok r => exact decrementBooksCount_ok_nonneg_auth auths id r hr h
      | error e => exact h

/-- C8: starting from nonnegative counters (in particular from 0), no
sequence of increment/decrement operations can drive a Category or
Author `booksCount` below 0, and a decrement attempted while the
counter is 0 fails — the store condition `booksCount > 0` is violated —
leaving the counter unchanged. -/
theorem c8_counter_never_negative (ops : List CounterOp) (cats : List Category)
    (auths : List Author) (cid aid : String)
    (hcats : ∀ c ∈ cats, 0 ≤ c.booksCount) (hauths : ∀ a ∈ auths, 0 ≤ a.booksCount) :
    (∀ c ∈ CategoriesService.applyOps cats cid ops, 0 ≤ c.booksCount)
    ∧ (∀ a ∈ AuthorsService.applyOps auths aid ops, 0 ≤ a.booksCount)
    ∧ (∀ c, CategoriesService.getItem cats cid = some c → c.booksCount = 0 →
        CategoriesService.decrementBooksCount cats cid
          = Except.error (ApiError.httpException "Books count cannot be negative" 400)
        ∧ CategoriesService.applyOp cats cid CounterOp.dec = cats)
    ∧ (∀ a, AuthorsService.getItem auths aid = some a → a.booksCount = 0 →
        AuthorsService.decrementBooksCount auths aid
          = Except.error (ApiError.authorUpdateErr "The conditional request failed")
        ∧ AuthorsService.applyOp auths aid CounterOp.dec = auths) := by
  refine ⟨applyOps_nonneg_cat cid ops cats hcats, applyOps_nonneg_auth aid ops auths hauths,
    ?_, ?_⟩
  · intro c hg h0
    have hdec : CategoriesService.decrementBooksCount cats cid
        = Except.error (ApiError.httpException "Books count cannot be negative" 400) := by
      unfold CategoriesService.decrementBooksCount
      simp only [hg]
      rw [if_neg (by omega)]
    refine ⟨hdec, ?_⟩
    unfold CategoriesService.applyOp
    rw [hdec]
  · intro a hg h0
    have hdec : AuthorsService.decrementBooksCount auths aid
        = Except.error (ApiError.authorUpdateErr "The conditional request failed") := by
      unfold AuthorsService.decrementBooksCount
      simp only [hg]
      rw [if_neg (by omega)]
    refine ⟨hdec, ?_⟩
    unfold AuthorsService.applyOp
    rw [hdec]

/-- A category whose counter starts at 0. -/
def zeroCategory : Category :=
  { id := "c0", name := "Poetry", booksCount := 0, createdAt := "T0", updatedAt := "T0" }

/-- An author whose counter starts at 0. -/
def zeroAuthor : Author :=
  { id := "a0", name := "Nobody", booksCount := 0, createdAt := "T0", updatedAt := "T0" }

/-- Witness for C8 on concrete zero counters and a concrete operation
sequence that attempts an underflow. -/
theorem c8_counter_never_negative_witness :
    (∀ c ∈ [zeroCategory], 0 ≤ c.booksCount)
    ∧ (∀ a ∈ [zeroAuthor], 0 ≤ a.booksCount)
    ∧ (∀ c ∈ CategoriesService.applyOps [zeroCategory] "c0"
        [CounterOp.dec, CounterOp.inc, CounterOp.dec, CounterOp.dec], 0 ≤ c.booksCount) :=
  ⟨by decide, by decide,
    (c8_counter_never_negative [CounterOp.dec, CounterOp.inc, CounterOp.dec, CounterOp.dec]
      [zeroCategory] [zeroAuthor] "c0" "a0" (by decide) (by decide)).1⟩

/-! ## C9 -/

/-- First scenario book. -/
def goBook1 : Book :=
  { sampleBook with id := "g1", title := "The Go Programming Language", isbn := "9780134190440" }

/-- Second scenario book. -/
def goBook2 : Book :=
  { sampleBook with id := "g2", title := "Learning Go", isbn := "9781492077213" }

/-- C9: the search scan can never see the intended matches.  The query
is lowercased to the tokens `go` and `programming`, but the DynamoDB
`contains` filter is a case-sensitive substring test against the raw
stored titles (`The Go Programming Language`, `Learning Go`), which
contain neither lowercase token; both books are filtered out and search
returns the empty list, although the in-memory ranking comparator
(which lowercases both sides) would have scored them 2 and 1. -/
theorem c9_search_scenario_returns_nothing :
    BooksService.searchWords "go programming" = ["go", "programming"]
    ∧ BooksService.matchCount ["go", "programming"] goBook1 = 2
    ∧ BooksService.matchCount ["go", "programming"] goBook2 = 1
    ∧ BooksService.searchScanFilter ["go", "programming"] goBook1 = false
    ∧ BooksService.searchScanFilter ["go", "programming"] goBook2 = false
    ∧ BooksService.search [goBook1, goBook2] "go programming" = Except.ok [] := by
  refine ⟨rfl, rfl, rfl, rfl, rfl, rfl⟩

/-! ## C10 -/

/-- C10: on an existing book, `update` writes every defined DTO field
verbatim — including `quantity`, `status`, `borrowerId`, `startDate`,
`returnDate` and `isbn` — leaves every absent field (and unreplaced
attachment) unchanged, ignores the DTO keys `id`, `createdAt`,
`updatedAt`, and always restamps `updatedAt`. -/
theorem c10_update_patches_all_dto_fields (table : List Book) (id : String)
    (dto : BooksService.UpdateBookDto) (newCover newPdf : Option String) (nowStr : String)
    (stored : Book) (h : BooksService.getItem table id = some stored) :
    ∃ b, BooksService.update table id dto newCover newPdf nowStr
        = Except.ok (b, setFirst (fun x => x.id == id) (fun _ => b) table)
      ∧ b.title = dto.title.getD stored.title
      ∧ b.authorId = dto.authorId.getD stored.authorId
      ∧ b.categoryId = dto.categoryId.getD stored.categoryId
      ∧ b.isbn = dto.isbn.getD stored.isbn
      ∧ b.status = dto.status.getD stored.status
      ∧ b.description = BooksService.patchOpt dto.description stored.description
      ∧ b.publishedYear = dto.publishedYear.getD stored.publishedYear
      ∧ b.borrowerId = BooksService.patchOpt dto.borrowerId stored.borrowerId
      ∧ b.quantity = dto.quantity.getD stored.quantity
      ∧ b.startDate = BooksService.patchOpt dto.startDate stored.startDate
      ∧ b.returnDate = BooksService.patchOpt dto.returnDate stored.returnDate
      ∧ b.rating = BooksService.patchOpt dto.rating stored.rating
      ∧ b.cover = newCover.getD stored.cover
      ∧ b.pdf = newPdf.getD stored.pdf
      ∧ b.id = stored.id
      ∧ b.createdAt = stored.createdAt
      ∧ b.updatedAt = nowStr := by
  unfold BooksService.update BooksService.findOne BooksService.updateExisting
  simp only [h]
  exact ⟨_, rfl, rfl, rfl, rfl, rfl, rfl, rfl, rfl, rfl, rfl, rfl, rfl, rfl, rfl, rfl, rfl,
    rfl, rfl⟩

/-- A patch that flips availability and borrow bookkeeping through the
plain update path, and also tries (in vain) to overwrite `id`,
`createdAt` and `updatedAt`. -/
def sampleUpdateDto : BooksService.UpdateBookDto :=
  { quantity := some 0, status := some BookStatus.BORROWED, borrowerId := some "U2",
    startDate := some 1000, returnDate := some 2000, isbn := some "9999999999999",
    id := some "EVIL", createdAt := some "EVIL", updatedAt := some "EVIL" }

/-- Witness for C10: updating the concrete `sampleBook` with
`sampleUpdateDto` and no replacement files. -/
theorem c10_update_patches_all_dto_fields_witness :
    (BooksService.getItem [sampleBook] "b1" = some sampleBook)
    ∧ ∃ b, BooksService.update [sampleBook] "b1" sampleUpdateDto none none "T9"
        = Except.ok (b, setFirst (fun x => x.id == "b1") (fun _ => b) [sampleBook])
      ∧ b.title = sampleUpdateDto.title.getD sampleBook.title
      ∧ b.authorId = sampleUpdateDto.authorId.getD sampleBook.authorId
      ∧ b.categoryId = sampleUpdateDto.categoryId.getD sampleBook.categoryId
      ∧ b.isbn = sampleUpdateDto.isbn.getD sampleBook.isbn
      ∧ b.status = sampleUpdateDto.status.getD sampleBook.status
      ∧ b.description = BooksService.patchOpt sampleUpdateDto.description sampleBook.description
      ∧ b.publishedYear = sampleUpdateDto.publishedYear.getD sampleBook.publishedYear
      ∧ b.borrowerId = BooksService.patchOpt sampleUpdateDto.borrowerId sampleBook.borrowerId
      ∧ b.quantity = sampleUpdateDto.quantity.getD sampleBook.quantity
      ∧ b.startDate = BooksService.patchOpt sampleUpdateDto.startDate sampleBook.startDate
      ∧ b.returnDate = BooksService.patchOpt sampleUpdateDto.returnDate sampleBook.returnDate
      ∧ b.rating = BooksService.patchOpt sampleUpdateDto.rating sampleBook.rating
      ∧ b.cover = Option.getD none sampleBook.cover
      ∧ b.pdf = Option.getD none sampleBook.pdf
      ∧ b.id = sampleBook.id
      ∧ b.createdAt = sampleBook.createdAt
      ∧ b.updatedAt = "T9" :=
  ⟨rfl, c10_update_patches_all_dto_fields [sampleBook] "b1" sampleUpdateDto none none "T9"
    sampleBook rfl⟩
